import Mathlib

set_option linter.unusedVariables false

/-!
Shallow embedding of the request-building and response-classification layer of
a blocking RabbitMQ HTTP API client (source files blocking.rs, commons.rs,
responses.rs).  Pure path construction, the HTTP status classifiers, and the
multi-step binding-deletion protocol are translated as Lean functions; the
network is modelled as an environment mapping each issued request to a
response.  Machine integers (u16 status codes, u32/u64 counters) are modelled
as Nat; JSON maps (serde_json Map backed by an ordered tree keyed by strings)
are modelled as key-sorted association lists.
-/

/-- JSON scalar values appearing in binding argument maps.  The client only
ever compares these for structural equality, so the scalar fragment suffices
for the filtering logic under study. -/
inductive JsonVal where
  | null
  | bool (b : Bool)
  | num (n : Int)
  | str (s : String)
deriving DecidableEq, Repr

/-- A serde_json Map with String keys, modelled by its canonical ordered-tree
representation: the association list of entries sorted strictly by key. -/
abbrev ArgsMap := List (String × JsonVal)

/-- Strict key order between two map entries, the invariant order of the
ordered-tree map representation. -/
def entryLt (p q : String × JsonVal) : Prop := p.1 < q.1

instance : DecidableRel entryLt := fun p q => inferInstanceAs (Decidable (p.1 < q.1))

/-- Insertion into the ordered map representation: entries stay sorted by key
and an existing key has its value replaced (the behaviour of insert on the
backing ordered tree). -/
def mapInsert (k : String) (v : JsonVal) : ArgsMap → ArgsMap
  | [] => [(k, v)]
  | (k', v') :: rest =>
    if k < k' then (k, v) :: (k', v') :: rest
    else if k = k' then (k, v) :: rest
    else (k', v') :: mapInsert k v rest

/-- Building a map by inserting the given entries left to right, which is how
a serde_json Map is populated from a sequence of insertions. -/
def mapOfEntries (l : List (String × JsonVal)) : ArgsMap :=
  l.foldl (fun m kv => mapInsert kv.1 kv.2 m) []

/-- Key lookup in the association-list map representation. -/
def mapLookup (k : String) : ArgsMap → Option JsonVal
  | [] => none
  | (k', v') :: rest => if k = k' then some v' else mapLookup k rest

/-- BindingDestinationType from commons.rs. -/
inductive BindingDestinationType where
  | Queue
  | Exchange
deriving DecidableEq, Repr

/-- BindingDestinationType.path_appreviation from commons.rs: the one-letter
path segment used when addressing a binding by its destination type. -/
def BindingDestinationType.path_appreviation : BindingDestinationType → String
  | .Queue => "q"
  | .Exchange => "e"

/-- BindingInfo from responses.rs: the server-returned representation of one
binding, including the server-assigned properties_key. -/
structure BindingInfo where
  vhost : String
  source : String
  destination : String
  destination_type : BindingDestinationType
  routing_key : String
  arguments : ArgsMap
  properties_key : String
deriving DecidableEq, Repr

/-- ResourceAlarm from responses.rs. -/
structure ResourceAlarm where
  node : String
  resource : String
deriving DecidableEq, Repr

/-- ClusterAlarmCheckDetails from responses.rs. -/
structure ClusterAlarmCheckDetails where
  reason : String
  alarms : List ResourceAlarm
deriving DecidableEq, Repr

/-- QuorumEndangeredQueue from responses.rs. -/
structure QuorumEndangeredQueue where
  name : String
  vhost : String
  queue_type : String
deriving DecidableEq, Repr

/-- QuorumCriticalityCheckDetails from responses.rs. -/
structure QuorumCriticalityCheckDetails where
  reason : String
  queues : List QuorumEndangeredQueue
deriving DecidableEq, Repr

/-- HealthCheckFailureDetails from responses.rs. -/
inductive HealthCheckFailureDetails where
  | AlarmCheck (d : ClusterAlarmCheckDetails)
  | NodeIsQuorumCritical (d : QuorumCriticalityCheckDetails)
deriving DecidableEq, Repr

/-- ChannelDetails from responses.rs. -/
structure ChannelDetails where
  id : Nat
  name : String
  connection_name : String
  node : String
  client_hostname : String
  client_port : Nat
  username : String
deriving DecidableEq, Repr

/-- NameAndVirtualHost from responses.rs. -/
structure NameAndVirtualHost where
  name : String
  vhost : String
deriving DecidableEq, Repr

/-- Consumer from responses.rs. -/
structure Consumer where
  consumer_tag : String
  active : Bool
  manual_ack : Bool
  prefetch_count : Nat
  exclusive : Bool
  arguments : ArgsMap
  delivery_ack_timeout : Nat
  queue : NameAndVirtualHost
  channel_details : ChannelDetails
deriving DecidableEq, Repr

/-- The Error enum from blocking.rs.  RequestError stands for any transport or
deserialization failure reported by the underlying HTTP machinery. -/
inductive Error where
  | RequestError
  | ClientErrorResponse (status : Nat)
  | ServerErrorResponse (status : Nat)
  | HealthCheckFailed (details : HealthCheckFailureDetails)
  | NotFound
  | ManyMatchingBindings
  | InvalidHeaderValue
  | Other
deriving DecidableEq, Repr

/-- HTTP verbs used by the client. -/
inductive HttpMethod where
  | GET
  | PUT
  | POST
  | DELETE
deriving DecidableEq, Repr

/-- One HTTP request as addressed by the client: a verb and the relative path
built by the operation.  Request bodies never influence the properties under
study and are not modelled. -/
structure HttpRequest where
  method : HttpMethod
  path : String
deriving DecidableEq, Repr

/-- One HTTP response, carrying the status code and, where an operation parses
the body, the result of that parse as an optional typed view (none models a
body that fails to deserialize as the given type). -/
structure HttpResponse where
  status : Nat
  bindingsBody : Option (List BindingInfo) := none
  consumersBody : Option (List Consumer) := none
  alarmBody : Option ClusterAlarmCheckDetails := none
  quorumBody : Option QuorumCriticalityCheckDetails := none
deriving DecidableEq, Repr

/-- The network environment: for each request the client may issue, the
response the server would return. -/
abbrev Env := HttpRequest → HttpResponse

/-- StatusCode.is_success of the HTTP library: 2xx statuses. -/
def is_success (status : Nat) : Bool := 200 ≤ status && status ≤ 299

/-- StatusCode.is_client_error of the HTTP library: 4xx statuses. -/
def is_client_error (status : Nat) : Bool := 400 ≤ status && status ≤ 499

/-- StatusCode.is_server_error of the HTTP library: 5xx statuses. -/
def is_server_error (status : Nat) : Bool := 500 ≤ status && status ≤ 599

/-- Client.percent_encode from blocking.rs: utf8_percent_encode with the
NON_ALPHANUMERIC set, which percent-encodes every byte of the UTF-8 encoding
that is not an ASCII letter or digit, using uppercase hex digits. -/
def isAsciiAlphanumByte (b : Nat) : Bool :=
  (48 ≤ b && b ≤ 57) || (65 ≤ b && b ≤ 90) || (97 ≤ b && b ≤ 122)

/-- Uppercase hexadecimal digit for a value below 16. -/
def hexUpper (n : Nat) : Char :=
  if n < 10 then Char.ofNat (48 + n) else Char.ofNat (55 + n)

/-- The UTF-8 encoding of one character as a list of byte values. -/
def utf8Bytes (c : Char) : List Nat :=
  let n := c.toNat
  if n < 128 then [n]
  else if n < 2048 then [192 + n / 64, 128 + n % 64]
  else if n < 65536 then [224 + n / 4096, 128 + (n / 64) % 64, 128 + n % 64]
  else [240 + n / 262144, 128 + (n / 4096) % 64, 128 + (n / 64) % 64, 128 + n % 64]

/-- Percent-encoding of a single byte under the NON_ALPHANUMERIC set: ASCII
letters and digits pass through, every other byte becomes a percent escape. -/
def encodeByte (b : Nat) : List Char :=
  if isAsciiAlphanumByte b then [Char.ofNat b]
  else ['%', hexUpper (b / 16), hexUpper (b % 16)]

/-- Client.percent_encode from blocking.rs. -/
def percent_encode (value : String) : String :=
  String.mk (List.flatten (List.map encodeByte (List.flatten (List.map utf8Bytes value.data))))

/-- Client.ok_or_status_code_error from blocking.rs: the Strict policy. -/
def ok_or_status_code_error (response : HttpResponse) : Except Error HttpResponse :=
  if is_client_error response.status then
    .error (.ClientErrorResponse response.status)
  else if is_server_error response.status then
    .error (.ServerErrorResponse response.status)
  else
    .ok response

/-- Client.ok_or_status_code_error_except_404 from blocking.rs: 404 is not
considered an error, to allow for idempotent deletes. -/
def ok_or_status_code_error_except_404 (response : HttpResponse) : Except Error HttpResponse :=
  if is_client_error response.status && response.status != 404 then
    .error (.ClientErrorResponse response.status)
  else if is_server_error response.status then
    .error (.ServerErrorResponse response.status)
  else
    .ok response

/-- Client.ok_or_status_code_error_except_503 from blocking.rs: 503 is passed
through so that health-check callers can parse the failure details. -/
def ok_or_status_code_error_except_503 (response : HttpResponse) : Except Error HttpResponse :=
  if is_client_error response.status then
    .error (.ClientErrorResponse response.status)
  else if is_server_error response.status && response.status != 503 then
    .error (.ServerErrorResponse response.status)
  else
    .ok response

/-- Client.http_get from blocking.rs: issue a GET and record the request. -/
def http_get (env : Env) (path : String) : HttpRequest × HttpResponse :=
  let req : HttpRequest := { method := .GET, path := path }
  (req, env req)

/-- Client.http_post from blocking.rs (bodies are not modelled). -/
def http_post (env : Env) (path : String) : HttpRequest × HttpResponse :=
  let req : HttpRequest := { method := .POST, path := path }
  (req, env req)

/-- Client.http_put from blocking.rs (bodies are not modelled). -/
def http_put (env : Env) (path : String) : HttpRequest × HttpResponse :=
  let req : HttpRequest := { method := .PUT, path := path }
  (req, env req)

/-- Client.http_delete from blocking.rs. -/
def http_delete (env : Env) (path : String) : HttpRequest × HttpResponse :=
  let req : HttpRequest := { method := .DELETE, path := path }
  (req, env req)

/-- Client.list_queue_bindings from blocking.rs: GET the bindings of a queue,
classify under the Strict policy, then deserialize the body. -/
def list_queue_bindings (env : Env) (virtual_host queue : String) :
    List HttpRequest × Except Error (List BindingInfo) :=
  let (req, response) := http_get env
    ("queues/" ++ percent_encode virtual_host ++ "/" ++ percent_encode queue ++ "/bindings")
  ([req],
    match ok_or_status_code_error response with
    | .error e => .error e
    | .ok response2 =>
      match response2.bindingsBody with
      | some bs => .ok bs
      | none => .error .RequestError)

/-- BindindVertex from blocking.rs (the misspelling is from the source). -/
inductive BindindVertex where
  | Source
  | Destination
deriving DecidableEq, Repr

/-- The Display rendering of BindindVertex used in the bindings path. -/
def BindindVertex.display : BindindVertex → String
  | .Source => "source"
  | .Destination => "destination"

/-- Client.list_exchange_bindings_with_source_or_destination from blocking.rs. -/
def list_exchange_bindings_with_source_or_destination (env : Env)
    (virtual_host exchange : String) (vertex : BindindVertex) :
    List HttpRequest × Except Error (List BindingInfo) :=
  let (req, response) := http_get env
    ("exchanges/" ++ percent_encode virtual_host ++ "/" ++ percent_encode exchange
      ++ "/bindings/" ++ vertex.display)
  ([req],
    match ok_or_status_code_error response with
    | .error e => .error e
    | .ok response2 =>
      match response2.bindingsBody with
      | some bs => .ok bs
      | none => .error .RequestError)

/-- Client.list_exchange_bindings_with_destination from blocking.rs. -/
def list_exchange_bindings_with_destination (env : Env) (virtual_host exchange : String) :
    List HttpRequest × Except Error (List BindingInfo) :=
  list_exchange_bindings_with_source_or_destination env virtual_host exchange .Destination

/-- The filter step of Client.delete_binding from blocking.rs: retain the
listed bindings whose source, routing key and argument map all equal the
caller-supplied values. -/
def binding_filter (bindings : List BindingInfo) (source routing_key : String)
    (args : ArgsMap) : List BindingInfo :=
  bindings.filter fun b =>
    b.source == source && b.routing_key == routing_key && b.arguments == args

/-- The DELETE request issued by Client.delete_binding once a single matching
binding record has been resolved. -/
def delete_binding_request (virtual_host source destination : String)
    (destination_type : BindingDestinationType) (properties_key : String) : HttpRequest :=
  { method := .DELETE,
    path := "bindings/" ++ percent_encode virtual_host ++ "/e/" ++ percent_encode source
      ++ "/" ++ destination_type.path_appreviation ++ "/" ++ percent_encode destination
      ++ "/" ++ percent_encode properties_key }

/-- The search step of Client.delete_binding from blocking.rs: by destination
type, list either the bindings of the destination queue or the bindings with
the destination exchange as destination. -/
def binding_search (env : Env) (virtual_host destination : String) :
    BindingDestinationType → List HttpRequest × Except Error (List BindingInfo)
  | .Queue => list_queue_bindings env virtual_host destination
  | .Exchange => list_exchange_bindings_with_destination env virtual_host destination

/-- Result of a client call, distinguishing a Rust panic (from unwrap on a
missing value) from an ordinary typed return. -/
inductive Outcome (α : Type) where
  | panicked
  | returned (requests : List HttpRequest) (result : Except Error α)
deriving Repr

/-- Client.delete_binding from blocking.rs: unwrap the optional argument map
(a panic when it is absent), list candidate bindings by destination type,
filter them by source, routing key and arguments, then either report NotFound,
delete the single match by its properties key, or report
ManyMatchingBindings. -/
def delete_binding (env : Env) (virtual_host source destination : String)
    (destination_type : BindingDestinationType) (routing_key : String)
    (arguments : Option ArgsMap) : Outcome HttpResponse :=
  match arguments with
  | none => .panicked
  | some args =>
    let listed := binding_search env virtual_host destination destination_type
    match listed.2 with
    | .error e => .returned listed.1 (.error e)
    | .ok bindings =>
      let bs := binding_filter bindings source routing_key args
      match bs with
      | [] => .returned listed.1 (.error .NotFound)
      | [b] =>
        let first_key := b.properties_key
        let (req2, response) := http_delete env
          (delete_binding_request virtual_host source destination destination_type
            first_key).path
        .returned (listed.1 ++ [req2]) (ok_or_status_code_error response)
      | _ => .returned listed.1 (.error .ManyMatchingBindings)

/-- Client.delete_queue from blocking.rs: Strict classification. -/
def delete_queue (env : Env) (virtual_host name : String) :
    List HttpRequest × Except Error Unit :=
  let (req, response) := http_delete env
    ("queues/" ++ percent_encode virtual_host ++ "/" ++ percent_encode name)
  ([req],
    match ok_or_status_code_error response with
    | .error e => .error e
    | .ok _ => .ok ())

/-- Client.delete_exchange from blocking.rs: Strict classification. -/
def delete_exchange (env : Env) (virtual_host name : String) :
    List HttpRequest × Except Error Unit :=
  let (req, response) := http_delete env
    ("exchanges/" ++ percent_encode virtual_host ++ "/" ++ percent_encode name)
  ([req],
    match ok_or_status_code_error response with
    | .error e => .error e
    | .ok _ => .ok ())

/-- Client.delete_vhost from blocking.rs: 404-absorbing classification. -/
def delete_vhost (env : Env) (virtual_host : String) :
    List HttpRequest × Except Error Unit :=
  let (req, response) := http_delete env ("vhosts/" ++ percent_encode virtual_host)
  ([req],
    match ok_or_status_code_error_except_404 response with
    | .error e => .error e
    | .ok _ => .ok ())

/-- Client.delete_user from blocking.rs: 404-absorbing classification. -/
def delete_user (env : Env) (username : String) :
    List HttpRequest × Except Error Unit :=
  let (req, response) := http_delete env ("users/" ++ percent_encode username)
  ([req],
    match ok_or_status_code_error_except_404 response with
    | .error e => .error e
    | .ok _ => .ok ())

/-- Client.clear_permissions from blocking.rs: DELETE on the permissions of a
user in a virtual host, with 404-absorbing classification. -/
def clear_permissions (env : Env) (virtual_host username : String) :
    List HttpRequest × Except Error Unit :=
  let (req, response) := http_delete env
    ("permissions/" ++ percent_encode virtual_host ++ "/" ++ percent_encode username)
  ([req],
    match ok_or_status_code_error_except_404 response with
    | .error e => .error e
    | .ok _ => .ok ())

/-- Client.grant_permissions from blocking.rs, translated exactly as written:
it issues an HTTP DELETE on the permissions path and classifies under the
Strict policy. -/
def grant_permissions (env : Env) (vhost user : String) :
    List HttpRequest × Except Error Unit :=
  let (req, response) := http_delete env
    ("permissions/" ++ percent_encode vhost ++ "/" ++ percent_encode user)
  ([req],
    match ok_or_status_code_error response with
    | .error e => .error e
    | .ok _ => .ok ())

/-- Client.rebalance_queue_leaders from blocking.rs, translated exactly as
written: the POST response is bound and then discarded without being passed
to any status-code classifier. -/
def rebalance_queue_leaders (env : Env) : List HttpRequest × Except Error Unit :=
  let (req, _response) := http_post env "rebalance/queues"
  ([req], .ok ())

/-- Client.list_consumers_in from blocking.rs, translated exactly as written:
the virtual host is interpolated into the path without percent-encoding. -/
def list_consumers_in (env : Env) (virtual_host : String) :
    List HttpRequest × Except Error (List Consumer) :=
  let (req, response) := http_get env ("consumers/" ++ virtual_host)
  ([req],
    match ok_or_status_code_error response with
    | .error e => .error e
    | .ok response2 =>
      match response2.consumersBody with
      | some cs => .ok cs
      | none => .error .RequestError)

/-- Client.health_check_alarms from blocking.rs: GET the given health path,
classify with the 503-preserving policy, succeed on a success status and
otherwise parse the body as cluster alarm details. -/
def health_check_alarms (env : Env) (path : String) :
    List HttpRequest × Except Error Unit :=
  let (req, response) := http_get env path
  ([req],
    match ok_or_status_code_error_except_503 response with
    | .error e => .error e
    | .ok response2 =>
      if is_success response2.status then
        .ok ()
      else
        match response2.alarmBody with
        | some failure_details =>
          .error (.HealthCheckFailed (.AlarmCheck failure_details))
        | none => .error .RequestError)

/-- Client.health_check_cluster_wide_alarms from blocking.rs. -/
def health_check_cluster_wide_alarms (env : Env) : List HttpRequest × Except Error Unit :=
  health_check_alarms env "health/checks/alarms"

/-- Client.health_check_local_alarms from blocking.rs. -/
def health_check_local_alarms (env : Env) : List HttpRequest × Except Error Unit :=
  health_check_alarms env "health/checks/local-alarms"

/-- Client.health_check_if_node_is_quorum_critical from blocking.rs. -/
def health_check_if_node_is_quorum_critical (env : Env) :
    List HttpRequest × Except Error Unit :=
  let (req, response) := http_get env "health/checks/node-is-quorum-critical"
  ([req],
    match ok_or_status_code_error_except_503 response with
    | .error e => .error e
    | .ok response2 =>
      if is_success response2.status then
        .ok ()
      else
        match response2.quorumBody with
        | some failure_details =>
          .error (.HealthCheckFailed (.NodeIsQuorumCritical failure_details))
        | none => .error .RequestError)

/-!
Lemmas about the ordered association-list model of serde_json maps.
-/

/-- Every entry of an insertion result is the inserted entry or an original
entry. -/
theorem mem_of_mem_mapInsert {k : String} {v : JsonVal} :
    ∀ {m : ArgsMap} {x : String × JsonVal}, x ∈ mapInsert k v m → x = (k, v) ∨ x ∈ m := by
  intro m
  induction m with
  | nil =>
    intro x h
    simp only [mapInsert, List.mem_singleton] at h
    exact Or.inl h
  | cons p rest ih =>
    intro x h
    obtain ⟨k', v'⟩ := p
    simp only [mapInsert] at h
    by_cases h1 : k < k'
    · simp only [if_pos h1, List.mem_cons] at h
      rcases h with h | h
      · exact Or.inl h
      · exact Or.inr (List.mem_cons.mpr h)
    · by_cases h2 : k = k'
      · simp only [if_neg h1, if_pos h2, List.mem_cons] at h
        rcases h with h | h
        · exact Or.inl h
        · exact Or.inr (List.mem_cons_of_mem _ h)
      · simp only [if_neg h1, if_neg h2, List.mem_cons] at h
        rcases h with h | h
        · exact Or.inr (h ▸ List.mem_cons_self _ _)
        · rcases ih h with h | h
          · exact Or.inl h
          · exact Or.inr (List.mem_cons_of_mem _ h)

/-- Insertion preserves the strict key-sortedness invariant of the map
representation. -/
theorem pairwise_mapInsert {k : String} {v : JsonVal} :
    ∀ {m : ArgsMap}, m.Pairwise entryLt → (mapInsert k v m).Pairwise entryLt := by
  intro m
  induction m with
  | nil =>
    intro _
    simp [mapInsert]
  | cons p rest ih =>
    intro h
    obtain ⟨k', v'⟩ := p
    rw [List.pairwise_cons] at h
    obtain ⟨hhead, htail⟩ := h
    simp only [mapInsert]
    by_cases h1 : k < k'
    · rw [if_pos h1, List.pairwise_cons]
      refine ⟨?_, List.pairwise_cons.mpr ⟨hhead, htail⟩⟩
      intro x hx
      rcases List.mem_cons.mp hx with hx | hx
      · subst hx; exact h1
      · exact lt_trans h1 (hhead x hx)
    · by_cases h2 : k = k'
      · rw [if_neg h1, if_pos h2, List.pairwise_cons]
        refine ⟨?_, htail⟩
        intro x hx
        exact h2 ▸ hhead x hx
      · rw [if_neg h1, if_neg h2, List.pairwise_cons]
        have hk : k' < k := lt_of_le_of_ne (not_lt.mp h1) (fun e => h2 e.symm)
        refine ⟨?_, ih htail⟩
        intro x hx
        rcases mem_of_mem_mapInsert hx with hx | hx
        · subst hx; exact hk
        · exact hhead x hx

/-- Inserting a fresh key permutes to consing the new entry in front. -/
theorem mapInsert_perm {k : String} {v : JsonVal} :
    ∀ {m : ArgsMap}, k ∉ m.map Prod.fst → (mapInsert k v m).Perm ((k, v) :: m) := by
  intro m
  induction m with
  | nil => intro _; simp [mapInsert]
  | cons p rest ih =>
    intro hfresh
    obtain ⟨k', v'⟩ := p
    simp only [List.map_cons, List.mem_cons] at hfresh
    push_neg at hfresh
    obtain ⟨hne, hnotin⟩ := hfresh
    simp only [mapInsert]
    by_cases h1 : k < k'
    · rw [if_pos h1]
    · rw [if_neg h1, if_neg hne]
      exact (List.Perm.cons _ (ih hnotin)).trans (List.Perm.swap _ _ _)

/-- Folding insertions of entries with pairwise-distinct keys, all fresh for
the accumulator, permutes to appending the entries to the accumulator. -/
theorem foldl_mapInsert_perm :
    ∀ (l : List (String × JsonVal)) (acc : ArgsMap),
      (l.map Prod.fst).Nodup → (∀ x ∈ l, x.1 ∉ acc.map Prod.fst) →
      (l.foldl (fun m kv => mapInsert kv.1 kv.2 m) acc).Perm (acc ++ l) := by
  intro l
  induction l with
  | nil =>
    intro acc _ _
    simp
  | cons x xs ih =>
    intro acc hnodup hfresh
    simp only [List.map_cons, List.nodup_cons] at hnodup
    obtain ⟨hx_not_xs, hxs_nodup⟩ := hnodup
    have hx_fresh : x.1 ∉ acc.map Prod.fst := hfresh x (List.mem_cons_self _ _)
    have hfresh2 : ∀ y ∈ xs, y.1 ∉ (mapInsert x.1 x.2 acc).map Prod.fst := by
      intro y hy hmem
      rcases List.mem_map.mp hmem with ⟨z, hz, hzy⟩
      rcases mem_of_mem_mapInsert hz with hz | hz
      · subst hz
        exact hx_not_xs (hzy ▸ List.mem_map_of_mem Prod.fst hy)
      · exact hfresh y (List.mem_cons_of_mem _ hy) (hzy ▸ List.mem_map_of_mem Prod.fst hz)
    have step : (xs.foldl (fun m kv => mapInsert kv.1 kv.2 m)
        (mapInsert x.1 x.2 acc)).Perm (mapInsert x.1 x.2 acc ++ xs) :=
      ih (mapInsert x.1 x.2 acc) hxs_nodup hfresh2
    refine step.trans ?_
    refine (List.Perm.append_right xs (mapInsert_perm hx_fresh)).trans ?_
    exact List.perm_middle.symm

/-- Folding insertions preserves the sortedness invariant. -/
theorem pairwise_foldl_mapInsert :
    ∀ (l : List (String × JsonVal)) (acc : ArgsMap), acc.Pairwise entryLt →
      (l.foldl (fun m kv => mapInsert kv.1 kv.2 m) acc).Pairwise entryLt := by
  intro l
  induction l with
  | nil => intro acc h; exact h
  | cons x xs ih => intro acc h; exact ih (mapInsert x.1 x.2 acc) (pairwise_mapInsert h)

/-- Two entry sequences with the same pairwise-distinct keys build the same
map regardless of insertion order. -/
theorem mapOfEntries_perm_eq {l₁ l₂ : List (String × JsonVal)}
    (hp : l₁.Perm l₂) (hn : (l₁.map Prod.fst).Nodup) :
    mapOfEntries l₁ = mapOfEntries l₂ := by
  have hn₂ : (l₂.map Prod.fst).Nodup := (hp.map Prod.fst).nodup hn
  have h₁ : (mapOfEntries l₁).Perm l₁ := by
    simpa [mapOfEntries] using foldl_mapInsert_perm l₁ [] hn (by simp)
  have h₂ : (mapOfEntries l₂).Perm l₂ := by
    simpa [mapOfEntries] using foldl_mapInsert_perm l₂ [] hn₂ (by simp)
  have hs₁ : (mapOfEntries l₁).Pairwise entryLt :=
    pairwise_foldl_mapInsert l₁ [] (List.Pairwise.nil)
  have hs₂ : (mapOfEntries l₂).Pairwise entryLt :=
    pairwise_foldl_mapInsert l₂ [] (List.Pairwise.nil)
  haveI : IsAntisymm (String × JsonVal) entryLt :=
    ⟨fun a b hab hba => absurd (lt_trans (α := String) hab hba) (lt_irrefl _)⟩
  exact List.eq_of_perm_of_sorted ((h₁.trans hp).trans h₂.symm) hs₁ hs₂

/-- Lookup misses every map whose keys are all above the requested key. -/
theorem mapLookup_eq_none_of_lt {k : String} :
    ∀ {m : ArgsMap}, (∀ p ∈ m, k < p.1) → mapLookup k m = none := by
  intro m
  induction m with
  | nil => intro _; rfl
  | cons p rest ih =>
    intro h
    obtain ⟨k', v'⟩ := p
    have hk : k < k' := h (k', v') (List.mem_cons_self _ _)
    simp only [mapLookup, if_neg (ne_of_lt hk)]
    exact ih (fun q hq => h q (List.mem_cons_of_mem _ hq))

/-- Two key-sorted maps are equal exactly when every key looks up to the same
value in both: list equality of the canonical representation coincides with
same-keys-same-values structural map equality. -/
theorem mapEq_iff_lookup_eq :
    ∀ {m₁ m₂ : ArgsMap}, m₁.Pairwise entryLt → m₂.Pairwise entryLt →
      (m₁ = m₂ ↔ ∀ k, mapLookup k m₁ = mapLookup k m₂) := by
  intro m₁
  induction m₁ with
  | nil =>
    intro m₂ _ h₂
    cases m₂ with
    | nil => simp
    | cons q ys =>
      obtain ⟨k₂, v₂⟩ := q
      constructor
      · intro h; cases h
      · intro hk
        have := hk k₂
        simp [mapLookup] at this
  | cons p xs ih =>
    intro m₂ h₁ h₂
    obtain ⟨k₁, v₁⟩ := p
    cases m₂ with
    | nil =>
      constructor
      · intro h; cases h
      · intro hk
        have := hk k₁
        simp [mapLookup] at this
    | cons q ys =>
      obtain ⟨k₂, v₂⟩ := q
      rw [List.pairwise_cons] at h₁ h₂
      obtain ⟨hhead₁, htail₁⟩ := h₁
      obtain ⟨hhead₂, htail₂⟩ := h₂
      constructor
      · intro h k; rw [h]
      · intro hk
        rcases lt_trichotomy k₁ k₂ with hlt | heq | hgt
        · exfalso
          have hl := hk k₁
          have hxs : mapLookup k₁ ((k₂, v₂) :: ys) = none := by
            apply mapLookup_eq_none_of_lt
            intro r hr
            rcases List.mem_cons.mp hr with hr | hr
            · subst hr; exact hlt
            · exact lt_trans hlt (hhead₂ r hr)
          rw [hxs] at hl
          simp [mapLookup] at hl
        · subst heq
          have hv : v₁ = v₂ := by
            have hl := hk k₁
            simpa [mapLookup] using hl
          have htails : xs = ys := by
            rw [ih htail₁ htail₂]
            intro k
            by_cases hke : k = k₁
            · subst hke
              rw [mapLookup_eq_none_of_lt (fun r hr => hhead₁ r hr),
                mapLookup_eq_none_of_lt (fun r hr => hhead₂ r hr)]
            · have hl := hk k
              simpa [mapLookup, if_neg hke] using hl
          rw [hv, htails]
        · exfalso
          have hl := hk k₂
          have hys : mapLookup k₂ ((k₁, v₁) :: xs) = none := by
            apply mapLookup_eq_none_of_lt
            intro r hr
            rcases List.mem_cons.mp hr with hr | hr
            · subst hr; exact hgt
            · exact lt_trans hgt (hhead₁ r hr)
          rw [hys] at hl
          simp [mapLookup] at hl

/-!
Lemmas about the binding-deletion protocol and the classifiers.
-/

/-- The search step issues exactly one GET request. -/
theorem binding_search_fst (env : Env) (virtual_host destination : String)
    (dt : BindingDestinationType) :
    ∃ p : String, (binding_search env virtual_host destination dt).1
      = [{ method := .GET, path := p }] := by
  cases dt
  · exact ⟨_, rfl⟩
  · exact ⟨_, rfl⟩

/-- C1: when the search step of delete_binding succeeds and the filter leaves
exactly one matching record, the client issues exactly one HTTP DELETE, to
the bindings path built from the percent-encoded virtual host, source,
destination and the properties key taken from the matching record, with the
one-letter destination-type abbreviation (q for queues, e for exchanges), and
the response to that DELETE is classified under the Strict policy. -/
theorem c1_delete_binding_single_match
    (env : Env) (virtual_host source destination routing_key : String)
    (destination_type : BindingDestinationType) (args : ArgsMap)
    (bs0 : List BindingInfo) (b : BindingInfo)
    (hsearch : (binding_search env virtual_host destination destination_type).2 = .ok bs0)
    (hfilter : binding_filter bs0 source routing_key args = [b]) :
    delete_binding env virtual_host source destination destination_type routing_key (some args)
      = .returned
          ((binding_search env virtual_host destination destination_type).1
            ++ [delete_binding_request virtual_host source destination destination_type
                  b.properties_key])
          (ok_or_status_code_error (env (delete_binding_request virtual_host source destination
            destination_type b.properties_key)))
    ∧ ((binding_search env virtual_host destination destination_type).1
        ++ [delete_binding_request virtual_host source destination destination_type
              b.properties_key]).filter (fun r => r.method == HttpMethod.DELETE)
        = [delete_binding_request virtual_host source destination destination_type
            b.properties_key]
    ∧ (delete_binding_request virtual_host source destination destination_type
        b.properties_key).path
        = "bindings/" ++ percent_encode virtual_host ++ "/e/" ++ percent_encode source ++ "/"
          ++ destination_type.path_appreviation ++ "/" ++ percent_encode destination ++ "/"
          ++ percent_encode b.properties_key
    ∧ BindingDestinationType.Queue.path_appreviation = "q"
    ∧ BindingDestinationType.Exchange.path_appreviation = "e" := by
  refine ⟨?_, ?_, rfl, rfl, rfl⟩
  · simp only [delete_binding, hsearch, hfilter, http_delete]
    rfl
  · obtain ⟨p, hp⟩ := binding_search_fst env virtual_host destination destination_type
    rw [hp]
    rfl

/-- Witness for C1 at a concrete environment holding one matching binding. -/
theorem c1_delete_binding_single_match_witness :
    delete_binding
        (fun _ =>
          { status := 200,
            bindingsBody := some
              [{ vhost := "/", source := "amq.fanout", destination := "q1",
                 destination_type := .Queue, routing_key := "", arguments := [],
                 properties_key := "key1" }] })
        "/" "amq.fanout" "q1" .Queue "" (some [])
      = .returned
          ((binding_search
              (fun _ =>
                { status := 200,
                  bindingsBody := some
                    [{ vhost := "/", source := "amq.fanout", destination := "q1",
                       destination_type := .Queue, routing_key := "", arguments := [],
                       properties_key := "key1" }] })
              "/" "q1" .Queue).1
            ++ [delete_binding_request "/" "amq.fanout" "q1" .Queue "key1"])
          (ok_or_status_code_error
            ((fun _ =>
              ({ status := 200,
                 bindingsBody := some
                   [{ vhost := "/", source := "amq.fanout", destination := "q1",
                      destination_type := .Queue, routing_key := "", arguments := [],
                      properties_key := "key1" }] } : HttpResponse))
              (delete_binding_request "/" "amq.fanout" "q1" .Queue "key1"))) :=
  (c1_delete_binding_single_match
    (fun _ =>
      { status := 200,
        bindingsBody := some
          [{ vhost := "/", source := "amq.fanout", destination := "q1",
             destination_type := .Queue, routing_key := "", arguments := [],
             properties_key := "key1" }] })
    "/" "amq.fanout" "q1" "" .Queue []
    [{ vhost := "/", source := "amq.fanout", destination := "q1",
       destination_type := .Queue, routing_key := "", arguments := [],
       properties_key := "key1" }]
    { vhost := "/", source := "amq.fanout", destination := "q1",
      destination_type := .Queue, routing_key := "", arguments := [],
      properties_key := "key1" }
    rfl rfl).1

/-- C2: when the search step of delete_binding succeeds and the filter leaves
no matching record, the call returns the NotFound error and no HTTP DELETE is
issued. -/
theorem c2_delete_binding_zero_matches
    (env : Env) (virtual_host source destination routing_key : String)
    (destination_type : BindingDestinationType) (args : ArgsMap)
    (bs0 : List BindingInfo)
    (hsearch : (binding_search env virtual_host destination destination_type).2 = .ok bs0)
    (hfilter : binding_filter bs0 source routing_key args = []) :
    delete_binding env virtual_host source destination destination_type routing_key (some args)
      = .returned (binding_search env virtual_host destination destination_type).1
          (.error .NotFound)
    ∧ ((binding_search env virtual_host destination destination_type).1.filter
        (fun r => r.method == HttpMethod.DELETE)) = [] := by
  constructor
  · simp only [delete_binding, hsearch, hfilter]
  · obtain ⟨p, hp⟩ := binding_search_fst env virtual_host destination destination_type
    rw [hp]
    rfl

/-- Witness for C2 at a concrete environment holding no bindings. -/
theorem c2_delete_binding_zero_matches_witness :
    delete_binding (fun _ => { status := 200, bindingsBody := some [] })
        "/" "amq.fanout" "q1" .Queue "" (some [])
      = .returned
          (binding_search (fun _ => { status := 200, bindingsBody := some [] })
            "/" "q1" .Queue).1
          (.error .NotFound) :=
  (c2_delete_binding_zero_matches (fun _ => { status := 200, bindingsBody := some [] })
    "/" "amq.fanout" "q1" "" .Queue [] [] rfl rfl).1

/-- C3: when the search step of delete_binding succeeds and the filter leaves
two or more matching records, the call returns the ManyMatchingBindings error
and no HTTP DELETE is issued. -/
theorem c3_delete_binding_many_matches
    (env : Env) (virtual_host source destination routing_key : String)
    (destination_type : BindingDestinationType) (args : ArgsMap)
    (bs0 : List BindingInfo) (b₁ b₂ : BindingInfo) (rest : List BindingInfo)
    (hsearch : (binding_search env virtual_host destination destination_type).2 = .ok bs0)
    (hfilter : binding_filter bs0 source routing_key args = b₁ :: b₂ :: rest) :
    delete_binding env virtual_host source destination destination_type routing_key (some args)
      = .returned (binding_search env virtual_host destination destination_type).1
          (.error .ManyMatchingBindings)
    ∧ ((binding_search env virtual_host destination destination_type).1.filter
        (fun r => r.method == HttpMethod.DELETE)) = [] := by
  constructor
  · simp only [delete_binding, hsearch, hfilter]
  · obtain ⟨p, hp⟩ := binding_search_fst env virtual_host destination destination_type
    rw [hp]
    rfl

/-- Witness for C3 at a concrete environment holding two bindings that differ
only in their properties keys. -/
theorem c3_delete_binding_many_matches_witness :
    delete_binding
        (fun _ =>
          { status := 200,
            bindingsBody := some
              [{ vhost := "/", source := "amq.fanout", destination := "q1",
                 destination_type := .Queue, routing_key := "", arguments := [],
                 properties_key := "key1" },
               { vhost := "/", source := "amq.fanout", destination := "q1",
                 destination_type := .Queue, routing_key := "", arguments := [],
                 properties_key := "key2" }] })
        "/" "amq.fanout" "q1" .Queue "" (some [])
      = .returned
          (binding_search
            (fun _ =>
              { status := 200,
                bindingsBody := some
                  [{ vhost := "/", source := "amq.fanout", destination := "q1",
                     destination_type := .Queue, routing_key := "", arguments := [],
                     properties_key := "key1" },
                   { vhost := "/", source := "amq.fanout", destination := "q1",
                     destination_type := .Queue, routing_key := "", arguments := [],
                     properties_key := "key2" }] })
            "/" "q1" .Queue).1
          (.error .ManyMatchingBindings) :=
  (c3_delete_binding_many_matches
    (fun _ =>
      { status := 200,
        bindingsBody := some
          [{ vhost := "/", source := "amq.fanout", destination := "q1",
             destination_type := .Queue, routing_key := "", arguments := [],
             properties_key := "key1" },
           { vhost := "/", source := "amq.fanout", destination := "q1",
             destination_type := .Queue, routing_key := "", arguments := [],
             properties_key := "key2" }] })
    "/" "amq.fanout" "q1" "" .Queue []
    [{ vhost := "/", source := "amq.fanout", destination := "q1",
       destination_type := .Queue, routing_key := "", arguments := [],
       properties_key := "key1" },
     { vhost := "/", source := "amq.fanout", destination := "q1",
       destination_type := .Queue, routing_key := "", arguments := [],
       properties_key := "key2" }]
    { vhost := "/", source := "amq.fanout", destination := "q1",
      destination_type := .Queue, routing_key := "", arguments := [],
      properties_key := "key1" }
    { vhost := "/", source := "amq.fanout", destination := "q1",
      destination_type := .Queue, routing_key := "", arguments := [],
      properties_key := "key2" }
    [] rfl rfl).1

/-- C4: the filter step of delete_binding retains exactly the listed records
whose source and routing key match by string equality and whose arguments map
matches by structural map equality (same keys mapped to same values, for
canonical key-sorted maps); consequently its result does not depend on the
insertion order of the entries the input arguments map was built from. -/
theorem c4_binding_filter_exact_and_order_independent
    (bindings : List BindingInfo) (source routing_key : String) (args : ArgsMap)
    (b : BindingInfo) (m₁ m₂ : ArgsMap) (l₁ l₂ : List (String × JsonVal)) :
    (b ∈ binding_filter bindings source routing_key args ↔
      b ∈ bindings ∧ b.source = source ∧ b.routing_key = routing_key ∧ b.arguments = args)
    ∧ (m₁.Pairwise entryLt → m₂.Pairwise entryLt →
        (m₁ = m₂ ↔ ∀ k, mapLookup k m₁ = mapLookup k m₂))
    ∧ (l₁.Perm l₂ → (l₁.map Prod.fst).Nodup →
        binding_filter bindings source routing_key (mapOfEntries l₁)
          = binding_filter bindings source routing_key (mapOfEntries l₂)) := by
  refine ⟨?_, mapEq_iff_lookup_eq, ?_⟩
  · simp [binding_filter, List.mem_filter, and_assoc]
  · intro hp hn
    rw [mapOfEntries_perm_eq hp hn]

/-- Witness for C4: the filter result at a concrete binding list is unchanged
when the argument entries are supplied in the opposite order. -/
theorem c4_binding_filter_exact_and_order_independent_witness :
    binding_filter
        [{ vhost := "/", source := "x", destination := "q1", destination_type := .Queue,
           routing_key := "rk", arguments := [("a", .str "v"), ("b", .num 2)],
           properties_key := "pk" }]
        "x" "rk" (mapOfEntries [("b", .num 2), ("a", .str "v")])
      = binding_filter
          [{ vhost := "/", source := "x", destination := "q1", destination_type := .Queue,
             routing_key := "rk", arguments := [("a", .str "v"), ("b", .num 2)],
             properties_key := "pk" }]
          "x" "rk" (mapOfEntries [("a", .str "v"), ("b", .num 2)]) :=
  (c4_binding_filter_exact_and_order_independent
    [{ vhost := "/", source := "x", destination := "q1", destination_type := .Queue,
       routing_key := "rk", arguments := [("a", .str "v"), ("b", .num 2)],
       properties_key := "pk" }]
    "x" "rk" []
    { vhost := "/", source := "x", destination := "q1", destination_type := .Queue,
      routing_key := "rk", arguments := [("a", .str "v"), ("b", .num 2)],
      properties_key := "pk" }
    [] []
    [("b", .num 2), ("a", .str "v")] [("a", .str "v"), ("b", .num 2)]).2.2
    (by decide) (by decide)

/-- The 404-absorbing classifier turns a 404 response into success. -/
theorem except_404_ok_of_404 {r : HttpResponse} (h : r.status = 404) :
    ok_or_status_code_error_except_404 r = .ok r := by
  simp [ok_or_status_code_error_except_404, is_client_error, is_server_error, h]

/-- The Strict classifier turns a 404 response into a client error. -/
theorem strict_error_of_404 {r : HttpResponse} (h : r.status = 404) :
    ok_or_status_code_error r = .error (.ClientErrorResponse 404) := by
  simp [ok_or_status_code_error, is_client_error, is_server_error, h]

/-- C5 counterexample: delete_queue classifies strictly, so the second
deletion of an already-absent queue (a 404 response) returns a client error
rather than success, refuting the claim for every delete operation of the
client. -/
theorem c5_counterexample_delete_queue_404 :
    (delete_queue (fun _ => { status := 404 }) "/" "q1").2
      = .error (.ClientErrorResponse 404) := by
  simp only [delete_queue, http_delete]
  rw [strict_error_of_404 rfl]

/-- C5 (amended): the 404-absorbing classifier used by delete_vhost,
delete_user and clear_permissions treats 404 as success (so deleting an
already-absent resource twice succeeds both times for them), any other 4xx
yields ClientErrorResponse and 5xx yields ServerErrorResponse, while
delete_queue classifies strictly and returns ClientErrorResponse 404 for an
already-absent queue. -/
theorem c5_idempotent_delete_404_absorbed
    (r : HttpResponse) (env : Env) (virtual_host username name : String) :
    (r.status = 404 → ok_or_status_code_error_except_404 r = .ok r)
    ∧ (is_client_error r.status = true → r.status ≠ 404 →
        ok_or_status_code_error_except_404 r = .error (.ClientErrorResponse r.status))
    ∧ (is_server_error r.status = true →
        ok_or_status_code_error_except_404 r = .error (.ServerErrorResponse r.status))
    ∧ ((env { method := .DELETE, path := "vhosts/" ++ percent_encode virtual_host }).status
          = 404 → (delete_vhost env virtual_host).2 = .ok ())
    ∧ ((env { method := .DELETE, path := "users/" ++ percent_encode username }).status = 404 →
        (delete_user env username).2 = .ok ())
    ∧ ((env { method := .DELETE, path := "permissions/" ++ percent_encode virtual_host
          ++ "/" ++ percent_encode username }).status = 404 →
        (clear_permissions env virtual_host username).2 = .ok ())
    ∧ ((env { method := .DELETE, path := "queues/" ++ percent_encode virtual_host ++ "/"
          ++ percent_encode name }).status = 404 →
        (delete_queue env virtual_host name).2 = .error (.ClientErrorResponse 404)) := by
  refine ⟨fun h => except_404_ok_of_404 h, ?_, ?_, ?_, ?_, ?_, ?_⟩
  · intro hcl hne
    have hb : (r.status != 404) = true := bne_iff_ne.mpr hne
    simp [ok_or_status_code_error_except_404, hcl, hb]
  · intro hsv
    have hcl : is_client_error r.status = false := by
      simp [is_server_error] at hsv
      simp [is_client_error]
      omega
    simp [ok_or_status_code_error_except_404, hcl, hsv]
  · intro h404
    simp only [delete_vhost, http_delete]
    rw [except_404_ok_of_404 h404]
  · intro h404
    simp only [delete_user, http_delete]
    rw [except_404_ok_of_404 h404]
  · intro h404
    simp only [clear_permissions, http_delete]
    rw [except_404_ok_of_404 h404]
  · intro h404
    simp only [delete_queue, http_delete]
    rw [strict_error_of_404 h404]

/-- Witness for C5 at concrete 404 responses. -/
theorem c5_idempotent_delete_404_absorbed_witness :
    ok_or_status_code_error_except_404 { status := 404 } = .ok { status := 404 }
    ∧ (delete_vhost (fun _ => { status := 404 }) "vh").2 = .ok ()
    ∧ (delete_queue (fun _ => { status := 404 }) "vh" "q1").2
        = .error (.ClientErrorResponse 404) :=
  ⟨(c5_idempotent_delete_404_absorbed { status := 404 } (fun _ => { status := 404 })
      "vh" "u" "q1").1 rfl,
   (c5_idempotent_delete_404_absorbed { status := 404 } (fun _ => { status := 404 })
      "vh" "u" "q1").2.2.2.1 rfl,
   (c5_idempotent_delete_404_absorbed { status := 404 } (fun _ => { status := 404 })
      "vh" "u" "q1").2.2.2.2.2.2 rfl⟩

/-- C6: rebalance_queue_leaders binds and then discards its POST response
without passing it to the status-code classifier, so a 400 response still
yields success, although the Strict classifier would have produced
ClientErrorResponse 400 for the same response. -/
theorem c6_rebalance_queue_leaders_skips_classifier :
    (rebalance_queue_leaders (fun _ => { status := 400 })).2 = .ok ()
    ∧ (rebalance_queue_leaders (fun _ => { status := 400 })).1
        = [{ method := .POST, path := "rebalance/queues" }]
    ∧ ok_or_status_code_error { status := 400 } = .error (.ClientErrorResponse 400) := by
  refine ⟨rfl, rfl, ?_⟩
  simp [ok_or_status_code_error, is_client_error]

/-- Classification of the alarm health-check operation by response status. -/
theorem health_check_alarms_cases (env : Env) (path : String) :
    ((env { method := .GET, path := path }).status = 503 →
      (∀ s, (health_check_alarms env path).2 ≠ .error (.ServerErrorResponse s))
      ∧ (∀ d, (env { method := .GET, path := path }).alarmBody = some d →
          (health_check_alarms env path).2 = .error (.HealthCheckFailed (.AlarmCheck d))))
    ∧ (is_success (env { method := .GET, path := path }).status = true →
        (health_check_alarms env path).2 = .ok ()) := by
  constructor
  · intro h503
    have hred : (health_check_alarms env path).2
        = match (env { method := .GET, path := path }).alarmBody with
          | some d => .error (.HealthCheckFailed (.AlarmCheck d))
          | none => .error .RequestError := by
      simp [health_check_alarms, http_get, ok_or_status_code_error_except_503,
        is_client_error, is_server_error, is_success, h503]
    constructor
    · intro s
      rw [hred]
      cases (env { method := .GET, path := path }).alarmBody <;> simp
    · intro d hd
      rw [hred, hd]
  · intro hsucc
    have hb : 200 ≤ (env { method := .GET, path := path }).status
        ∧ (env { method := .GET, path := path }).status ≤ 299 := by
      simpa [is_success] using hsucc
    have h1 : is_client_error (env { method := .GET, path := path }).status = false := by
      simp [is_client_error]
      omega
    have h2 : is_server_error (env { method := .GET, path := path }).status = false := by
      simp [is_server_error]
      omega
    simp [health_check_alarms, http_get, ok_or_status_code_error_except_503, h1, h2, hsucc]

/-- Classification of the quorum-criticality health-check operation by
response status. -/
theorem health_check_quorum_cases (env : Env) :
    ((env { method := .GET, path := "health/checks/node-is-quorum-critical" }).status = 503 →
      (∀ s, (health_check_if_node_is_quorum_critical env).2
        ≠ .error (.ServerErrorResponse s))
      ∧ (∀ d, (env { method := .GET, path := "health/checks/node-is-quorum-critical" }).quorumBody = some d →
          (health_check_if_node_is_quorum_critical env).2
            = .error (.HealthCheckFailed (.NodeIsQuorumCritical d))))
    ∧ (is_success (env { method := .GET, path := "health/checks/node-is-quorum-critical" }).status = true →
        (health_check_if_node_is_quorum_critical env).2 = .ok ()) := by
  constructor
  · intro h503
    have hred : (health_check_if_node_is_quorum_critical env).2
        = match (env { method := .GET, path := "health/checks/node-is-quorum-critical" }).quorumBody with
          | some d => .error (.HealthCheckFailed (.NodeIsQuorumCritical d))
          | none => .error .RequestError := by
      simp [health_check_if_node_is_quorum_critical, http_get,
        ok_or_status_code_error_except_503, is_client_error, is_server_error, is_success,
        h503]
    constructor
    · intro s
      rw [hred]
      cases (env { method := .GET, path := "health/checks/node-is-quorum-critical" }).quorumBody <;> simp
    · intro d hd
      rw [hred, hd]
  · intro hsucc
    have hb : 200 ≤ (env { method := .GET, path := "health/checks/node-is-quorum-critical" }).status
        ∧ (env { method := .GET, path := "health/checks/node-is-quorum-critical" }).status ≤ 299 := by
      simpa [is_success] using hsucc
    have h1 : is_client_error (env { method := .GET, path := "health/checks/node-is-quorum-critical" }).status = false := by
      simp [is_client_error]
      omega
    have h2 : is_server_error (env { method := .GET, path := "health/checks/node-is-quorum-critical" }).status = false := by
      simp [is_server_error]
      omega
    simp [health_check_if_node_is_quorum_critical, http_get,
      ok_or_status_code_error_except_503, h1, h2, hsucc]

/-- C7: for the three health-check operations, a 503 response never surfaces
as ServerErrorResponse but as HealthCheckFailed carrying the detail variant
of the endpoint queried (AlarmCheck for the two alarm endpoints,
NodeIsQuorumCritical for the quorum endpoint) whenever the body parses, and a
success status yields success with no detail. -/
theorem c7_health_check_503_details (env : Env) :
    (((env { method := .GET, path := "health/checks/alarms" }).status = 503 →
        (∀ s, (health_check_cluster_wide_alarms env).2 ≠ .error (.ServerErrorResponse s))
        ∧ (∀ d, (env { method := .GET, path := "health/checks/alarms" }).alarmBody = some d →
            (health_check_cluster_wide_alarms env).2
              = .error (.HealthCheckFailed (.AlarmCheck d))))
      ∧ (is_success (env { method := .GET, path := "health/checks/alarms" }).status = true →
          (health_check_cluster_wide_alarms env).2 = .ok ()))
    ∧ (((env { method := .GET, path := "health/checks/local-alarms" }).status = 503 →
        (∀ s, (health_check_local_alarms env).2 ≠ .error (.ServerErrorResponse s))
        ∧ (∀ d, (env { method := .GET, path := "health/checks/local-alarms" }).alarmBody = some d →
            (health_check_local_alarms env).2
              = .error (.HealthCheckFailed (.AlarmCheck d))))
      ∧ (is_success (env { method := .GET, path := "health/checks/local-alarms" }).status = true →
          (health_check_local_alarms env).2 = .ok ()))
    ∧ (((env { method := .GET, path := "health/checks/node-is-quorum-critical" }).status = 503 →
        (∀ s, (health_check_if_node_is_quorum_critical env).2
          ≠ .error (.ServerErrorResponse s))
        ∧ (∀ d, (env { method := .GET, path := "health/checks/node-is-quorum-critical" }).quorumBody = some d →
            (health_check_if_node_is_quorum_critical env).2
              = .error (.HealthCheckFailed (.NodeIsQuorumCritical d))))
      ∧ (is_success (env { method := .GET, path := "health/checks/node-is-quorum-critical" }).status = true →
          (health_check_if_node_is_quorum_critical env).2 = .ok ())) :=
  ⟨health_check_alarms_cases env "health/checks/alarms",
   health_check_alarms_cases env "health/checks/local-alarms",
   health_check_quorum_cases env⟩

/-- Witness for C7 at a concrete 503 environment with parseable bodies. -/
theorem c7_health_check_503_details_witness :
    (health_check_cluster_wide_alarms
        (fun _ =>
          { status := 503,
            alarmBody := some
              { reason := "resource alarms in effect",
                alarms := [{ node := "rabbit@node1", resource := "memory" }] },
            quorumBody := some
              { reason := "quorum critical",
                queues := [{ name := "qq.1", vhost := "/", queue_type := "quorum" }] } })).2
      = .error (.HealthCheckFailed (.AlarmCheck
          { reason := "resource alarms in effect",
            alarms := [{ node := "rabbit@node1", resource := "memory" }] }))
    ∧ (health_check_if_node_is_quorum_critical
        (fun _ =>
          { status := 503,
            alarmBody := some
              { reason := "resource alarms in effect",
                alarms := [{ node := "rabbit@node1", resource := "memory" }] },
            quorumBody := some
              { reason := "quorum critical",
                queues := [{ name := "qq.1", vhost := "/", queue_type := "quorum" }] } })).2
      = .error (.HealthCheckFailed (.NodeIsQuorumCritical
          { reason := "quorum critical",
            queues := [{ name := "qq.1", vhost := "/", queue_type := "quorum" }] })) :=
  ⟨(((c7_health_check_503_details
      (fun _ =>
        { status := 503,
          alarmBody := some
            { reason := "resource alarms in effect",
              alarms := [{ node := "rabbit@node1", resource := "memory" }] },
          quorumBody := some
            { reason := "quorum critical",
              queues := [{ name := "qq.1", vhost := "/", queue_type := "quorum" }] } })).1.1
      rfl).2 _ rfl),
   (((c7_health_check_503_details
      (fun _ =>
        { status := 503,
          alarmBody := some
            { reason := "resource alarms in effect",
              alarms := [{ node := "rabbit@node1", resource := "memory" }] },
          quorumBody := some
            { reason := "quorum critical",
              queues := [{ name := "qq.1", vhost := "/", queue_type := "quorum" }] } })).2.2.1
      rfl).2 _ rfl)⟩

/-- C8: list_consumers_in interpolates the caller-supplied virtual host into
its path without percent-encoding, so the default virtual host (a lone slash)
produces the path consumers// with an unencoded slash, even though
percent_encode would have produced the escape %2F, and even though other
operations such as delete_queue do percent-encode both of their path
segments. -/
theorem c8_list_consumers_in_unencoded_vhost :
    (list_consumers_in (fun _ => { status := 200, consumersBody := some [] }) "/").1
      = [{ method := .GET, path := "consumers//" }]
    ∧ percent_encode "/" = "%2F"
    ∧ percent_encode "a b" = "a%20b"
    ∧ (delete_queue (fun _ => { status := 200 }) "/" "q 1").1
      = [{ method := .DELETE, path := "queues/%2F/q%201" }] := by
  refine ⟨by decide, by decide, by decide, by decide⟩

/-- C9 counterexample: delete_binding unwraps its optional arguments
parameter, so a call with absent arguments panics instead of returning a
typed result. -/
theorem c9_counterexample_none_arguments_panics :
    delete_binding (fun _ => { status := 200 }) "/" "amq.fanout" "q1" .Queue "" none
      = .panicked := rfl

/-- C9 (amended): whenever the caller supplies an explicit (possibly empty)
arguments map, delete_binding never panics: it terminates with a list of
issued requests and a typed success or typed error. -/
theorem c9_amended_some_arguments_returns_typed_result
    (env : Env) (virtual_host source destination routing_key : String)
    (destination_type : BindingDestinationType) (args : ArgsMap) :
    ∃ requests result,
      delete_binding env virtual_host source destination destination_type routing_key
        (some args) = .returned requests result := by
  simp only [delete_binding]
  split
  · exact ⟨_, _, rfl⟩
  · split
    · exact ⟨_, _, rfl⟩
    · exact ⟨_, _, rfl⟩
    · exact ⟨_, _, rfl⟩

/-- C10: grant_permissions issues an HTTP DELETE to the permissions path, the
very request clear_permissions issues, and the two differ only in how a 404
is classified: grant_permissions surfaces ClientErrorResponse 404, while
clear_permissions absorbs the 404 into success; for every other status the
two return identical results. -/
theorem c10_grant_permissions_is_delete (env : Env) (vhost user : String) :
    (grant_permissions env vhost user).1 = (clear_permissions env vhost user).1
    ∧ (grant_permissions env vhost user).1
        = [{ method := .DELETE,
             path := "permissions/" ++ percent_encode vhost ++ "/" ++ percent_encode user }]
    ∧ ((env { method := .DELETE,
              path := "permissions/" ++ percent_encode vhost ++ "/"
                ++ percent_encode user }).status = 404 →
        (grant_permissions env vhost user).2 = .error (.ClientErrorResponse 404)
        ∧ (clear_permissions env vhost user).2 = .ok ())
    ∧ ((env { method := .DELETE,
              path := "permissions/" ++ percent_encode vhost ++ "/"
                ++ percent_encode user }).status ≠ 404 →
        (grant_permissions env vhost user).2 = (clear_permissions env vhost user).2) := by
  refine ⟨rfl, rfl, ?_, ?_⟩
  · intro h404
    constructor
    · simp only [grant_permissions, http_delete]
      rw [strict_error_of_404 h404]
    · simp only [clear_permissions, http_delete]
      rw [except_404_ok_of_404 h404]
  · intro hne
    have hb : ((env { method := .DELETE,
                      path := "permissions/" ++ percent_encode vhost ++ "/"
                        ++ percent_encode user }).status != 404) = true := bne_iff_ne.mpr hne
    simp only [grant_permissions, clear_permissions, http_delete,
      ok_or_status_code_error, ok_or_status_code_error_except_404, hb, Bool.and_true]

/-- Witness for C10 at a concrete 404 environment. -/
theorem c10_grant_permissions_is_delete_witness :
    (grant_permissions (fun _ => { status := 404 }) "vh" "guest").2
      = .error (.ClientErrorResponse 404)
    ∧ (clear_permissions (fun _ => { status := 404 }) "vh" "guest").2 = .ok () :=
  (c10_grant_permissions_is_delete (fun _ => { status := 404 }) "vh" "guest").2.2.1 rfl
